import Mathlib

/-!
Shallow embedding of `src/scan-probe.js` (bnb-arb-probe): the quote
adapters, route evaluators, cost model, profitability scoring, per-cycle
row persistence, ranking, and the CSV sink.

Modelling conventions:
* JavaScript `BigInt` values are `Int`; `BigInt` division truncates toward
  zero, so `/` on BigInt is `Int.tdiv`.
* The on-chain transport (the ethers contract calls) is an oracle
  `QuoteCall → Except String Int`: each read-only call either yields the
  normalised output amount or fails with an error message.  The source
  normalises the transport's tuple/array/record return shapes to one
  integer right at the adapter boundary (scan-probe.js lines 61, 78-81,
  92-95, 104), so the oracle returns that one integer.
* Every adapter and evaluator returns, besides its result, the list of
  transport calls it issued, so that short-circuiting ("no call for leg
  k+1 is issued") is a statement about the returned trace.
* JS strings in the failure-note pipeline are lists of characters;
  `replaceAll(",", ";")` with its one-character pattern is a
  character-wise map and `slice(0, 160)` is `List.take 160`.
* `Number(bigint)` (the final step of `safePctBps`, line 37) converts an
  exact integer to an IEEE-754 binary64 value, rounding to nearest with
  ties to even; on integers below the binary64 overflow threshold this is
  `jsNumberOfInt` below.
* `main`'s polling loop runs one cycle per iteration; one cycle over the
  configured trade sizes is `runCycleRows`.  The source parses each
  decimal size label with `ethers.parseUnits`; no claim concerns that
  parser, so a size enters the model as the pair of its label and its
  parsed smallest-unit amount.  Timestamps (`nowIso()`) enter as an
  opaque string parameter.
-/

/-- One read-only transport call, as issued by the three quote adapters:
a V2 router `getAmountsOut` call over a token path, the primary V3 quoter
`quoteExactInputSingle` call form, the alternate V3 `quoteExactInput`
encoded-path call form, or a Wombat `quotePotentialSwap` call. -/
inductive QuoteCall where
  | v2 (path : List String) (amountIn : Int)
  | v3single (tokenIn tokenOut : String) (fee : Nat) (amountIn : Int)
  | v3path (tokenIn tokenOut : String) (fee : Nat) (amountIn : Int)
  | wombat (fromToken toToken : String) (amountIn : Int)
deriving DecidableEq

/-- The chain transport: each call either returns the normalised output
amount or fails with an error message (revert reason / message). -/
abbrev Oracle := QuoteCall → Except String Int

/-- `quoteV2` (scan-probe.js lines 58-65): one router call; on failure the
error is rethrown as `V2 quote failed: …`.  The returned trace is the one
call issued. -/
def quoteV2 (o : Oracle) (path : List String) (amountIn : Int) :
    Except String Int × List QuoteCall :=
  match o (.v2 path amountIn) with
  | .ok out => (.ok out, [.v2 path amountIn])
  | .error e => (.error ("V2 quote failed: " ++ e), [.v2 path amountIn])

/-- `quoteV3Single` (scan-probe.js lines 67-100): try the primary
`quoteExactInputSingle` call form; on failure retry once with the
encoded-path `quoteExactInput` form; if both fail, fail with a message
carrying both underlying messages. -/
def quoteV3Single (o : Oracle) (tokenIn tokenOut : String) (fee : Nat) (amountIn : Int) :
    Except String Int × List QuoteCall :=
  match o (.v3single tokenIn tokenOut fee amountIn) with
  | .ok out => (.ok out, [.v3single tokenIn tokenOut fee amountIn])
  | .error e1 =>
    match o (.v3path tokenIn tokenOut fee amountIn) with
    | .ok out2 =>
      (.ok out2, [.v3single tokenIn tokenOut fee amountIn, .v3path tokenIn tokenOut fee amountIn])
    | .error e2 =>
      (.error ("V3 quote failed: " ++ e2 ++ " (fallback after: " ++ e1 ++ ")"),
       [.v3single tokenIn tokenOut fee amountIn, .v3path tokenIn tokenOut fee amountIn])

/-- `quoteWombat` (scan-probe.js lines 102-109): one pool call; on failure
the error is rethrown as `Wombat quote failed: …`. -/
def quoteWombat (o : Oracle) (fromToken toToken : String) (amountIn : Int) :
    Except String Int × List QuoteCall :=
  match o (.wombat fromToken toToken amountIn) with
  | .ok out => (.ok out, [.wombat fromToken toToken amountIn])
  | .error e => (.error ("Wombat quote failed: " ++ e), [.wombat fromToken toToken amountIn])

/-- The token addresses of `ctx.tokens` (scan-probe.js lines 240-245). -/
structure TokenCfg where
  WBNB : String
  USDT : String
  USDC : String
  BUSD : String
deriving DecidableEq

/-- `cfg.gasEstimates` (per-swap gas-unit constants). -/
structure GasEstimates where
  v2Swap : Nat
  v3Swap : Nat
  wombatSwap : Nat
deriving DecidableEq

/-- The slice of the loaded configuration the core logic reads: token
addresses, the two V3 fee tiers (`cfg.v3FeeTiers` keys `USDT/WBNB` and
`WBNB/USDT`), gas estimates and the flash-loan fee in basis points. -/
structure Config where
  tokens : TokenCfg
  feeTierUSDT_WBNB : Nat
  feeTierWBNB_USDT : Nat
  gasEstimates : GasEstimates
  flashloanFeeBps : Nat
deriving DecidableEq

/-- A route evaluator's result (the object literals of scan-probe.js lines
136, 138, 151, 153, 187, 189).  The failure literals carry only `ok`,
`error` and `routeType`; the other fields default as absent. -/
structure RouteOutcome where
  ok : Bool
  routeType : String
  legs : String := ""
  amountIn : Int := 0
  out : Int := 0
  error : String := ""
deriving DecidableEq

/-- The two cross-version directions (the `dir` strings `V2->V3` and
`V3->V2` of scan-probe.js line 277). -/
inductive Dir where
  | v2v3
  | v3v2
deriving DecidableEq

/-- `evalCrossVersion` (scan-probe.js lines 118-140): two legs,
WBNB→USDT→WBNB, one leg on the V2 router and one on the V3 quoter
according to the direction.  Any leg failure is caught and returned as a
failed outcome tagged with this route's type. -/
def evalCrossVersion (o : Oracle) (cfg : Config) (sizeInWBNB : Int) (dir : Dir) :
    RouteOutcome × List QuoteCall :=
  match dir with
  | .v2v3 =>
    match quoteV2 o [cfg.tokens.WBNB, cfg.tokens.USDT] sizeInWBNB with
    | (.error e, t1) => ({ ok := false, routeType := "V2→V3", error := e }, t1)
    | (.ok midOut, t1) =>
      match quoteV3Single o cfg.tokens.USDT cfg.tokens.WBNB cfg.feeTierUSDT_WBNB midOut with
      | (.error e, t2) => ({ ok := false, routeType := "V2→V3", error := e }, t1 ++ t2)
      | (.ok finalOut, t2) =>
        ({ ok := true, routeType := "V2→V3", legs := "V2->V3:WBNB->USDT->WBNB",
           amountIn := sizeInWBNB, out := finalOut }, t1 ++ t2)
  | .v3v2 =>
    match quoteV3Single o cfg.tokens.WBNB cfg.tokens.USDT cfg.feeTierWBNB_USDT sizeInWBNB with
    | (.error e, t1) => ({ ok := false, routeType := "V3→V2", error := e }, t1)
    | (.ok midOut, t1) =>
      match quoteV2 o [cfg.tokens.USDT, cfg.tokens.WBNB] midOut with
      | (.error e, t2) => ({ ok := false, routeType := "V3→V2", error := e }, t1 ++ t2)
      | (.ok finalOut, t2) =>
        ({ ok := true, routeType := "V3→V2", legs := "V3->V2:WBNB->USDT->WBNB",
           amountIn := sizeInWBNB, out := finalOut }, t1 ++ t2)

/-- `evalTriangleV2` (scan-probe.js lines 145-155): one V2 router call with
the 4-token path WBNB→USDT→BUSD→WBNB. -/
def evalTriangleV2 (o : Oracle) (cfg : Config) (sizeInWBNB : Int) :
    RouteOutcome × List QuoteCall :=
  match quoteV2 o [cfg.tokens.WBNB, cfg.tokens.USDT, cfg.tokens.BUSD, cfg.tokens.WBNB] sizeInWBNB with
  | (.error e, t) => ({ ok := false, routeType := "TRI", error := e }, t)
  | (.ok out, t) =>
    ({ ok := true, routeType := "TRI", legs := "TRI_V2:WBNB->USDT->BUSD->WBNB",
       amountIn := sizeInWBNB, out := out }, t)

/-- The two Wombat-hop variants (scan-probe.js line 393). -/
inductive Variant where
  | A
  | B
deriving DecidableEq

/-- `evalTriangleWombat` (scan-probe.js lines 162-191): three legs, V2 then
Wombat then V2, in variant A via USDT→USDC and in variant B via
USDC→USDT.  Any leg failure is caught and returned as a failed outcome
tagged with this variant's route type. -/
def evalTriangleWombat (o : Oracle) (cfg : Config) (sizeInWBNB : Int) (variant : Variant) :
    RouteOutcome × List QuoteCall :=
  match variant with
  | .A =>
    match quoteV2 o [cfg.tokens.WBNB, cfg.tokens.USDT] sizeInWBNB with
    | (.error e, t1) => ({ ok := false, routeType := "TRI_WOMBAT_A", error := e }, t1)
    | (.ok leg1Out, t1) =>
      match quoteWombat o cfg.tokens.USDT cfg.tokens.USDC leg1Out with
      | (.error e, t2) => ({ ok := false, routeType := "TRI_WOMBAT_A", error := e }, t1 ++ t2)
      | (.ok leg2Out, t2) =>
        match quoteV2 o [cfg.tokens.USDC, cfg.tokens.WBNB] leg2Out with
        | (.error e, t3) =>
          ({ ok := false, routeType := "TRI_WOMBAT_A", error := e }, t1 ++ t2 ++ t3)
        | (.ok finalOut, t3) =>
          ({ ok := true, routeType := "TRI_WOMBAT_A",
             legs := "TRI_WOMBAT_A:WBNB->USDT (V2)->USDC (Wombat)->WBNB (V2)",
             amountIn := sizeInWBNB, out := finalOut }, t1 ++ t2 ++ t3)
  | .B =>
    match quoteV2 o [cfg.tokens.WBNB, cfg.tokens.USDC] sizeInWBNB with
    | (.error e, t1) => ({ ok := false, routeType := "TRI_WOMBAT_B", error := e }, t1)
    | (.ok leg1Out, t1) =>
      match quoteWombat o cfg.tokens.USDC cfg.tokens.USDT leg1Out with
      | (.error e, t2) => ({ ok := false, routeType := "TRI_WOMBAT_B", error := e }, t1 ++ t2)
      | (.ok leg2Out, t2) =>
        match quoteV2 o [cfg.tokens.USDT, cfg.tokens.WBNB] leg2Out with
        | (.error e, t3) =>
          ({ ok := false, routeType := "TRI_WOMBAT_B", error := e }, t1 ++ t2 ++ t3)
        | (.ok finalOut, t3) =>
          ({ ok := true, routeType := "TRI_WOMBAT_B",
             legs := "TRI_WOMBAT_B:WBNB->USDC (V2)->USDT (Wombat)->WBNB (V2)",
             amountIn := sizeInWBNB, out := finalOut }, t1 ++ t2 ++ t3)

/-- `estimateGasUnitsForRoute` (scan-probe.js lines 195-209): the static
per-route gas-unit lookup with its default of two V2 swaps. -/
def estimateGasUnitsForRoute (routeType : String) (cfg : Config) : Nat :=
  if routeType = "V2→V3" ∨ routeType = "V3→V2" then
    cfg.gasEstimates.v2Swap + cfg.gasEstimates.v3Swap
  else if routeType = "TRI" then
    cfg.gasEstimates.v2Swap * 3
  else if routeType = "TRI_WOMBAT_A" ∨ routeType = "TRI_WOMBAT_B" then
    cfg.gasEstimates.v2Swap * 2 + cfg.gasEstimates.wombatSwap
  else
    cfg.gasEstimates.v2Swap * 2

/-- `flashloanFeeInWBNB` (scan-probe.js lines 211-213):
`amountIn * feeBps / 10000` in BigInt arithmetic (truncating division). -/
def flashloanFeeInWBNB (amountInWBNB : Int) (cfg : Config) : Int :=
  (amountInWBNB * (cfg.flashloanFeeBps : Int)).tdiv 10000

/-- `gasCostInWBNB` (scan-probe.js lines 215-217): gas price times gas
units, exact integer multiplication. -/
def gasCostInWBNB (gasPriceWei : Int) (gasUnits : Nat) : Int :=
  gasPriceWei * (gasUnits : Int)

/-- Round a natural number to the nearest IEEE-754 binary64 value (53
significant bits, ties to even).  Every integer of magnitude at most
`2 ^ 53` is exactly representable; above that, the low
`log2 m - 52` bits are rounded away.  This is what JavaScript's
`Number(bigint)` does to a non-negative integer below the binary64
overflow threshold (about `1.8 * 10 ^ 308`, far beyond anything
relevant here). -/
def roundNearestEven53 (m : Nat) : Nat :=
  if m ≤ 2 ^ 53 then m
  else
    let s := m.log2 - 52
    let q := m / 2 ^ s
    let r := m % 2 ^ s
    let half := 2 ^ (s - 1)
    (if half < r ∨ (r = half ∧ q % 2 = 1) then q + 1 else q) * 2 ^ s

/-- JavaScript's `Number(bigint)` on an integer (of magnitude below the
binary64 overflow threshold): the exactly-held mathematical value of the
resulting double. -/
def jsNumberOfInt (n : Int) : Int :=
  if n < 0 then -(roundNearestEven53 n.natAbs : Int) else (roundNearestEven53 n.natAbs : Int)

/-- `safePctBps` (scan-probe.js lines 35-38): `0` for zero input, else
`Number((pnl * 10000n) / input)` — the exact truncating BigInt quotient,
then converted to a JS `Number`. -/
def safePctBps (pnl input : Int) : Int :=
  if input = 0 then 0 else jsNumberOfInt ((pnl * 10000).tdiv input)

/-- One entry of `batchResults` (scan-probe.js lines 289-301): the scored
result of a successful route outcome. -/
structure Scored where
  routeType : String
  size : String
  legs : String
  amountIn : Int
  out : Int
  pnl : Int
  bps : Int
  gasWBNB : Int
  flashFee : Int
  netPnl : Int
  note : String
deriving DecidableEq

/-- The scoring block `main` runs on every successful route outcome
(scan-probe.js lines 280-301, repeated at 339-358 and 396-415): gas cost
from the static estimate, flash fee on the configured input size, raw
profit `out - in`, net `pnl - gas - fee`, and basis points via
`safePctBps`. -/
def scoreSuccess (r : RouteOutcome) (sz : String) (sizeIn : Int) (gasPriceWei : Int)
    (cfg : Config) : Scored :=
  let gasUnits := estimateGasUnitsForRoute r.routeType cfg
  let gasWBNB := gasCostInWBNB gasPriceWei gasUnits
  let flashFee := flashloanFeeInWBNB sizeIn cfg
  let pnl := r.out - r.amountIn
  let net := pnl - gasWBNB - flashFee
  let bps := safePctBps pnl r.amountIn
  { routeType := r.routeType, size := sz, legs := r.legs, amountIn := r.amountIn,
    out := r.out, pnl := pnl, bps := bps, gasWBNB := gasWBNB, flashFee := flashFee,
    netPnl := net, note := "" }

/-- One persisted CSV row, fields in `CSV_HEADERS` order (scan-probe.js
line 260).  All monetary fields are the decimal strings the source writes;
the free-text note is kept as its character list (see the module note on
the failure-note pipeline). -/
structure Row where
  timestamp : String
  routeType : String
  size : String
  legs : String
  inAmt : String
  out : String
  pnl : String
  bps : String
  gasCostWBNB : String
  flashFeeWBNB : String
  netPnl : String
  note : List Char
deriving DecidableEq

/-- `replaceAll(",", ";")` on an error message: every comma becomes a
semicolon (the pattern is a single character, so this is a character-wise
map). -/
def escapeCommas (err : List Char) : List Char :=
  err.map fun c => if c = ',' then ';' else c

/-- The failure note written to a row (scan-probe.js lines 330, 387, 444):
a fixed tag, then the comma-escaped error message cut to 160 characters by
`slice(0, 160)`. -/
def failNote (tag : List Char) (err : List Char) : List Char :=
  tag ++ (escapeCommas err).take 160

/-- The tag of a failed cross-version row (`ERR 1one:`). -/
def errTagCross : List Char := "ERR 1one:".data

/-- The tag of a failed single-DEX-triangle row (`ERR 2two:`). -/
def errTagTri : List Char := "ERR 2two:".data

/-- The tag of a failed Wombat-triangle row (`ERR 3three:`). -/
def errTagWombat : List Char := "ERR 3three:".data

/-- The row a successful attempt persists (scan-probe.js lines 303-316):
every numeric field is the decimal rendering of the scored integer, the
note is empty. -/
def mkSuccessRow (ts : String) (sc : Scored) : Row :=
  { timestamp := ts, routeType := sc.routeType, size := sc.size, legs := sc.legs,
    inAmt := toString sc.amountIn, out := toString sc.out, pnl := toString sc.pnl,
    bps := toString sc.bps, gasCostWBNB := toString sc.gasWBNB,
    flashFeeWBNB := toString sc.flashFee, netPnl := toString sc.netPnl, note := [] }

/-- The row a failed attempt persists (scan-probe.js lines 318-331,
375-388, 432-445): empty legs, every monetary field the literal string
`0`, and the tagged escaped-truncated error note. -/
def mkFailRow (ts : String) (r : RouteOutcome) (sz : String) (tag : List Char) : Row :=
  { timestamp := ts, routeType := r.routeType, size := sz, legs := "",
    inAmt := "0", out := "0", pnl := "0", bps := "0", gasCostWBNB := "0",
    flashFeeWBNB := "0", netPnl := "0", note := failNote tag r.error.data }

/-- The five rows one trade size contributes to one cycle (the body of the
size loop, scan-probe.js lines 273-448): both cross-version directions,
the single-DEX triangle, and both Wombat variants, each persisting exactly
one row whether it succeeded or failed. -/
def rowsForSize (o : Oracle) (cfg : Config) (gasPriceWei : Int) (ts : String)
    (sz : String) (sizeIn : Int) : List Row :=
  let crossRow := fun (dir : Dir) =>
    let r := (evalCrossVersion o cfg sizeIn dir).1
    if r.ok then mkSuccessRow ts (scoreSuccess r sz sizeIn gasPriceWei cfg)
    else mkFailRow ts r sz errTagCross
  let triRow :=
    let r := (evalTriangleV2 o cfg sizeIn).1
    if r.ok then mkSuccessRow ts (scoreSuccess r sz sizeIn gasPriceWei cfg)
    else mkFailRow ts r sz errTagTri
  let wombatRow := fun (v : Variant) =>
    let r := (evalTriangleWombat o cfg sizeIn v).1
    if r.ok then mkSuccessRow ts (scoreSuccess r sz sizeIn gasPriceWei cfg)
    else mkFailRow ts r sz errTagWombat
  [crossRow .v2v3, crossRow .v3v2, triRow, wombatRow .A, wombatRow .B]

/-- The rows one full polling cycle persists, in order, over the
configured trade sizes (each size given as its decimal label and its
parsed smallest-unit amount). -/
def runCycleRows (o : Oracle) (cfg : Config) (gasPriceWei : Int) (ts : String) :
    List (String × Int) → List Row
  | [] => []
  | sp :: rest =>
    rowsForSize o cfg gasPriceWei ts sp.1 sp.2 ++ runCycleRows o cfg gasPriceWei ts rest

/-- The ranking comparator (scan-probe.js line 453): `a` may precede `b`
exactly when `a`'s raw profit is at least `b`'s (the JS comparator returns
a positive value only when `a.pnl < b.pnl`). -/
def descPnl (a b : Scored) : Bool :=
  decide (b.pnl ≤ a.pnl)

/-- The ranking step (scan-probe.js lines 451-454): keep the entries with
a BigInt `pnl` (every batch entry, since scoring always sets one), sort by
raw profit descending — JS `Array.prototype.sort` is a stable sort — and
keep the first ten. -/
def rankTop10 (batch : List Scored) : List Scored :=
  ((batch.filter fun _ => true).mergeSort descPnl).take 10

/-- The CSV header fields (scan-probe.js line 260). -/
def CSV_HEADERS : List String :=
  ["timestamp", "routeType", "size", "legs", "in", "out", "pnl", "bps",
   "gasCostWBNB", "flashFeeWBNB", "netPnl", "note"]

/-- A row's cells in header order (`headers.map(h => row[h])`,
scan-probe.js line 20). -/
def rowCells (row : Row) : List String :=
  [row.timestamp, row.routeType, row.size, row.legs, row.inAmt, row.out,
   row.pnl, row.bps, row.gasCostWBNB, row.flashFeeWBNB, row.netPnl,
   String.mk row.note]

/-- One CSV line: the cells joined by commas plus a newline
(scan-probe.js line 20). -/
def csvLine (row : Row) : String :=
  String.intercalate "," (rowCells row) ++ "\n"

/-- The header line (`headers.join(",") + "\n"`, scan-probe.js line 22). -/
def headerLine : String :=
  String.intercalate "," CSV_HEADERS ++ "\n"

/-- `appendCsvRow` (scan-probe.js lines 18-25) acting on the sink file's
state, `none` when the file does not exist and `some content` when it
exists with that content: the header line is prepended only when the file
does not exist (`fs.existsSync`), then the row line is appended. -/
def appendCsvRow (file : Option String) (row : Row) : Option String :=
  match file with
  | none => some (headerLine ++ csvLine row)
  | some content => some (content ++ csvLine row)

/-! ## Shared helper lemmas and concrete instances -/

/-- A configuration used by the concrete scenarios: one gas unit per V2
swap, none for the others, and a 10 bps flash-loan fee (so a 1000-unit
trade pays fee 1 and, at gas price 5, gas cost 5). -/
def demoCfg : Config :=
  { tokens := { WBNB := "wbnb", USDT := "usdt", USDC := "usdc", BUSD := "busd" },
    feeTierUSDT_WBNB := 500, feeTierWBNB_USDT := 500,
    gasEstimates := { v2Swap := 1, v3Swap := 0, wombatSwap := 0 },
    flashloanFeeBps := 10 }

/-- An oracle whose every call fails. -/
def oracleAllFail : Oracle := fun _ => .error "boom"

/-- The spec's scoring scenario: a successful cross-version outcome with
input 1000 and final output 1040. -/
def scenarioOutcome : RouteOutcome :=
  { ok := true, routeType := "V2→V3", legs := "V2->V3:WBNB->USDT->WBNB",
    amountIn := 1000, out := 1040 }

lemma log2_between_53 {m : Nat} (h1 : 2 ^ 53 ≤ m) (h2 : m < 2 ^ 54) :
    Nat.log2 m = 53 := by
  have hne : m ≠ 0 := by positivity
  refine le_antisymm ?_ ((Nat.le_log2 hne).mpr h1)
  have := (Nat.log2_lt hne).mpr h2
  omega

lemma roundNearestEven53_small {m : Nat} (h : m ≤ 2 ^ 53) :
    roundNearestEven53 m = m := by
  rw [roundNearestEven53, if_pos h]

lemma jsNumberOfInt_small {n : Int} (h : n.natAbs ≤ 2 ^ 53) :
    jsNumberOfInt n = n := by
  rw [jsNumberOfInt]
  split <;> rw [roundNearestEven53_small h] <;> omega

lemma roundNearestEven53_pow53_one :
    roundNearestEven53 (2 ^ 53 + 1) = 2 ^ 53 := by
  have hl : Nat.log2 (2 ^ 53 + 1) = 53 := log2_between_53 (by norm_num) (by norm_num)
  rw [roundNearestEven53, if_neg (by norm_num)]
  simp only [hl]
  norm_num

lemma roundNearestEven53_pow53_three :
    roundNearestEven53 (2 ^ 53 + 3) = 2 ^ 53 + 4 := by
  have hl : Nat.log2 (2 ^ 53 + 3) = 53 := log2_between_53 (by norm_num) (by norm_num)
  rw [roundNearestEven53, if_neg (by norm_num)]
  simp only [hl]
  norm_num

lemma jsNumberOfInt_pow53_one :
    jsNumberOfInt (2 ^ 53 + 1) = 2 ^ 53 := by
  rw [jsNumberOfInt, if_neg (by norm_num)]
  have habs : ((2 ^ 53 + 1 : Int)).natAbs = 2 ^ 53 + 1 := by norm_num
  rw [habs, roundNearestEven53_pow53_one]
  norm_num

lemma jsNumberOfInt_pow53_three :
    jsNumberOfInt (2 ^ 53 + 3) = 2 ^ 53 + 4 := by
  rw [jsNumberOfInt, if_neg (by norm_num)]
  have habs : ((2 ^ 53 + 3 : Int)).natAbs = 2 ^ 53 + 3 := by norm_num
  rw [habs, roundNearestEven53_pow53_three]
  norm_num

lemma failNote_no_comma (tag err : List Char) (htag : ',' ∉ tag) :
    ',' ∉ failNote tag err := by
  intro h
  rcases List.mem_append.1 h with h | h
  · exact htag h
  · have h2 := List.take_subset 160 _ h
    rcases List.mem_map.1 h2 with ⟨c, _, heq⟩
    by_cases hc : c = ',' <;> simp [hc] at heq

lemma failNote_length (tag err : List Char) :
    (failNote tag err).length ≤ tag.length + 160 := by
  rw [failNote, List.length_append]
  have := List.length_take 160 (escapeCommas err)
  omega

/-! ## The claims -/

/-- C1: for every scored result, net profit equals raw profit minus gas
cost minus flash-loan fee, as an exact integer equality, and raw profit is
final output minus input; in particular, for input 1000 with final output
1040, gas cost 5 and flash fee 1, rawProfit = 40 and netProfit = 34 (and
bps = 400). -/
theorem C1_net_profit_exact :
    (∀ (r : RouteOutcome) (sz : String) (sizeIn gasPriceWei : Int) (cfg : Config),
      (scoreSuccess r sz sizeIn gasPriceWei cfg).netPnl =
        (scoreSuccess r sz sizeIn gasPriceWei cfg).pnl -
          (scoreSuccess r sz sizeIn gasPriceWei cfg).gasWBNB -
          (scoreSuccess r sz sizeIn gasPriceWei cfg).flashFee ∧
      (scoreSuccess r sz sizeIn gasPriceWei cfg).pnl = r.out - r.amountIn) ∧
    ((scoreSuccess scenarioOutcome "1000" 1000 5 demoCfg).pnl = 40 ∧
     (scoreSuccess scenarioOutcome "1000" 1000 5 demoCfg).gasWBNB = 5 ∧
     (scoreSuccess scenarioOutcome "1000" 1000 5 demoCfg).flashFee = 1 ∧
     (scoreSuccess scenarioOutcome "1000" 1000 5 demoCfg).netPnl = 34 ∧
     (scoreSuccess scenarioOutcome "1000" 1000 5 demoCfg).bps = 400) := by
  refine ⟨fun r sz sizeIn gasPriceWei cfg => ⟨rfl, rfl⟩, ?_, ?_, ?_, ?_, ?_⟩ <;> decide

/-- C2 counterexample: at rawProfit 2^53 + 1 and input 10000, the exact
truncating quotient is 2^53 + 1, but `safePctBps` returns 2^53: the
BigInt quotient is converted to a JS `Number` (binary64), which cannot
hold 2^53 + 1, so the claim's equality fails. -/
theorem C2_counterexample :
    safePctBps (2 ^ 53 + 1) 10000 = 2 ^ 53 ∧
    ((2 ^ 53 + 1 : Int) * 10000).tdiv 10000 = 2 ^ 53 + 1 ∧
    safePctBps (2 ^ 53 + 1) 10000 ≠ ((2 ^ 53 + 1 : Int) * 10000).tdiv 10000 := by
  have h1 : ((2 ^ 53 + 1 : Int) * 10000).tdiv 10000 = 2 ^ 53 + 1 :=
    Int.mul_tdiv_cancel _ (by norm_num)
  have h2 : safePctBps (2 ^ 53 + 1) 10000 = 2 ^ 53 := by
    rw [safePctBps, if_neg (by norm_num), h1, jsNumberOfInt_pow53_one]
  refine ⟨h2, h1, ?_⟩
  rw [h1, h2]
  norm_num

/-- C2 (amended): `safePctBps` returns 0 when the input is 0, and
otherwise returns the truncating (sign-preserving) integer quotient
rawProfit * 10000 / input whenever that quotient's magnitude is at most
2^53 (the range where the final conversion of the exact BigInt quotient
to a JS `Number` is lossless). -/
theorem C2_bps_truncating_div (pnl input : Int) :
    (input = 0 → safePctBps pnl input = 0) ∧
    (input ≠ 0 → ((pnl * 10000).tdiv input).natAbs ≤ 2 ^ 53 →
      safePctBps pnl input = (pnl * 10000).tdiv input) := by
  constructor
  · intro h
    rw [safePctBps, if_pos h]
  · intro h hb
    rw [safePctBps, if_neg h, jsNumberOfInt_small hb]

/-- C2 witness: at rawProfit 40 and input 1000 the hypotheses hold and the
quotient is 400; at input 0 the result is 0. -/
theorem C2_bps_truncating_div_witness :
    safePctBps 40 1000 = 400 ∧ safePctBps 7 0 = 0 := by
  constructor
  · have h := (C2_bps_truncating_div 40 1000).2 (by norm_num) (by decide)
    exact h.trans (by decide)
  · exact (C2_bps_truncating_div 7 0).1 rfl

/-- C5: every route attempt, success or failure, persists exactly one row,
so one polling cycle writes 5 rows per configured trade size (two
cross-version directions, one single-DEX triangle, two Wombat-hop
variants), whatever the oracle answers. -/
theorem C5_rows_per_cycle (o : Oracle) (cfg : Config) (gasPriceWei : Int) (ts : String)
    (sizes : List (String × Int)) :
    (runCycleRows o cfg gasPriceWei ts sizes).length = 5 * sizes.length := by
  induction sizes with
  | nil => rfl
  | cons sp rest ih =>
    simp only [runCycleRows, rowsForSize, List.length_append, List.length_cons,
      List.length_nil, ih, List.length_cons]
    omega

/-- C7: the free-text note of a failed row — for each of the three tags the
source uses — contains no comma (every comma of the error message is
replaced by a semicolon before writing) and is bounded in length by the
tag plus the 160-character cap, so it cannot introduce extra fields into
the comma-separated row. -/
theorem C7_fail_note_safe (err : List Char) :
    (',' ∉ failNote errTagCross err ∧
      (failNote errTagCross err).length ≤ errTagCross.length + 160) ∧
    (',' ∉ failNote errTagTri err ∧
      (failNote errTagTri err).length ≤ errTagTri.length + 160) ∧
    (',' ∉ failNote errTagWombat err ∧
      (failNote errTagWombat err).length ≤ errTagWombat.length + 160) :=
  ⟨⟨failNote_no_comma _ _ (by decide), failNote_length _ _⟩,
   ⟨failNote_no_comma _ _ (by decide), failNote_length _ _⟩,
   ⟨failNote_no_comma _ _ (by decide), failNote_length _ _⟩⟩

/-- A concrete failed-attempt row, used to exercise the CSV sink on an
existing-but-empty file. -/
def emptySinkRow : Row :=
  mkFailRow "t0" { ok := false, routeType := "TRI", error := "boom" } "0.01" errTagTri

/-- C9 counterexample: on a sink that exists but is empty at startup
(state `some ""`), `appendCsvRow` writes no header row — the source tests
`fs.existsSync`, not emptiness — so "header is written when the sink is
empty at startup" fails on that state. -/
theorem C9_counterexample :
    appendCsvRow (some "") emptySinkRow = some (csvLine emptySinkRow) ∧
    appendCsvRow (some "") emptySinkRow ≠ some (headerLine ++ csvLine emptySinkRow) := by
  constructor
  · rfl
  · decide

/-- C9 (amended): the header row is written exactly once, and only when
the sink file does not exist at startup; if the file exists — even with
empty content — no header is written; and after any append the file
exists, so no later append ever writes the header again. -/
theorem C9_header_once_on_missing_file (row row2 : Row) (content : String) :
    appendCsvRow none row = some (headerLine ++ csvLine row) ∧
    appendCsvRow (some content) row = some (content ++ csvLine row) ∧
    (∀ f : Option String, ∃ c : String, appendCsvRow f row = some c ∧
      appendCsvRow (some c) row2 = some (c ++ csvLine row2)) := by
  refine ⟨rfl, rfl, fun f => ?_⟩
  cases f <;> exact ⟨_, rfl, rfl⟩

/-- C3: for every route evaluation, if the quote for leg k fails, no
quote call for leg k+1 is issued and the evaluation returns a failed
outcome tagged with the route's type and carrying leg k's error — stated
for every failure branch of every evaluator: both cross-version
directions at leg 1 and at leg 2, the single-DEX triangle's one call, and
both Wombat variants at legs 1, 2 and 3.  In every case the returned
trace is exactly the calls of legs 1..k. -/
theorem C3_leg_failure_short_circuits (o : Oracle) (cfg : Config) (size mid mid2 : Int)
    (e e1 e2 : String) :
    (o (.v2 [cfg.tokens.WBNB, cfg.tokens.USDT] size) = .error e →
      evalCrossVersion o cfg size .v2v3 =
        ({ ok := false, routeType := "V2→V3", error := "V2 quote failed: " ++ e },
         [.v2 [cfg.tokens.WBNB, cfg.tokens.USDT] size])) ∧
    (o (.v3single cfg.tokens.WBNB cfg.tokens.USDT cfg.feeTierWBNB_USDT size) = .error e1 →
      o (.v3path cfg.tokens.WBNB cfg.tokens.USDT cfg.feeTierWBNB_USDT size) = .error e2 →
      evalCrossVersion o cfg size .v3v2 =
        ({ ok := false, routeType := "V3→V2",
           error := "V3 quote failed: " ++ e2 ++ " (fallback after: " ++ e1 ++ ")" },
         [.v3single cfg.tokens.WBNB cfg.tokens.USDT cfg.feeTierWBNB_USDT size,
          .v3path cfg.tokens.WBNB cfg.tokens.USDT cfg.feeTierWBNB_USDT size])) ∧
    (o (.v2 [cfg.tokens.WBNB, cfg.tokens.USDT] size) = .error e →
      evalTriangleWombat o cfg size .A =
        ({ ok := false, routeType := "TRI_WOMBAT_A", error := "V2 quote failed: " ++ e },
         [.v2 [cfg.tokens.WBNB, cfg.tokens.USDT] size])) ∧
    (o (.v2 [cfg.tokens.WBNB, cfg.tokens.USDT] size) = .ok mid →
      o (.wombat cfg.tokens.USDT cfg.tokens.USDC mid) = .error e →
      evalTriangleWombat o cfg size .A =
        ({ ok := false, routeType := "TRI_WOMBAT_A", error := "Wombat quote failed: " ++ e },
         [.v2 [cfg.tokens.WBNB, cfg.tokens.USDT] size,
          .wombat cfg.tokens.USDT cfg.tokens.USDC mid])) ∧
    (o (.v2 [cfg.tokens.WBNB, cfg.tokens.USDT] size) = .ok mid →
      o (.wombat cfg.tokens.USDT cfg.tokens.USDC mid) = .ok mid2 →
      o (.v2 [cfg.tokens.USDC, cfg.tokens.WBNB] mid2) = .error e →
      evalTriangleWombat o cfg size .A =
        ({ ok := false, routeType := "TRI_WOMBAT_A", error := "V2 quote failed: " ++ e },
         [.v2 [cfg.tokens.WBNB, cfg.tokens.USDT] size,
          .wombat cfg.tokens.USDT cfg.tokens.USDC mid,
          .v2 [cfg.tokens.USDC, cfg.tokens.WBNB] mid2])) ∧
    (o (.v2 [cfg.tokens.WBNB, cfg.tokens.USDT] size) = .ok mid →
      o (.v3single cfg.tokens.USDT cfg.tokens.WBNB cfg.feeTierUSDT_WBNB mid) = .error e1 →
      o (.v3path cfg.tokens.USDT cfg.tokens.WBNB cfg.feeTierUSDT_WBNB mid) = .error e2 →
      evalCrossVersion o cfg size .v2v3 =
        ({ ok := false, routeType := "V2→V3",
           error := "V3 quote failed: " ++ e2 ++ " (fallback after: " ++ e1 ++ ")" },
         [.v2 [cfg.tokens.WBNB, cfg.tokens.USDT] size,
          .v3single cfg.tokens.USDT cfg.tokens.WBNB cfg.feeTierUSDT_WBNB mid,
          .v3path cfg.tokens.USDT cfg.tokens.WBNB cfg.feeTierUSDT_WBNB mid])) ∧
    (o (.v3single cfg.tokens.WBNB cfg.tokens.USDT cfg.feeTierWBNB_USDT size) = .ok mid →
      o (.v2 [cfg.tokens.USDT, cfg.tokens.WBNB] mid) = .error e →
      evalCrossVersion o cfg size .v3v2 =
        ({ ok := false, routeType := "V3→V2", error := "V2 quote failed: " ++ e },
         [.v3single cfg.tokens.WBNB cfg.tokens.USDT cfg.feeTierWBNB_USDT size,
          .v2 [cfg.tokens.USDT, cfg.tokens.WBNB] mid])) ∧
    (o (.v2 [cfg.tokens.WBNB, cfg.tokens.USDT, cfg.tokens.BUSD, cfg.tokens.WBNB] size) =
        .error e →
      evalTriangleV2 o cfg size =
        ({ ok := false, routeType := "TRI", error := "V2 quote failed: " ++ e },
         [.v2 [cfg.tokens.WBNB, cfg.tokens.USDT, cfg.tokens.BUSD, cfg.tokens.WBNB] size])) ∧
    (o (.v2 [cfg.tokens.WBNB, cfg.tokens.USDC] size) = .error e →
      evalTriangleWombat o cfg size .B =
        ({ ok := false, routeType := "TRI_WOMBAT_B", error := "V2 quote failed: " ++ e },
         [.v2 [cfg.tokens.WBNB, cfg.tokens.USDC] size])) ∧
    (o (.v2 [cfg.tokens.WBNB, cfg.tokens.USDC] size) = .ok mid →
      o (.wombat cfg.tokens.USDC cfg.tokens.USDT mid) = .error e →
      evalTriangleWombat o cfg size .B =
        ({ ok := false, routeType := "TRI_WOMBAT_B", error := "Wombat quote failed: " ++ e },
         [.v2 [cfg.tokens.WBNB, cfg.tokens.USDC] size,
          .wombat cfg.tokens.USDC cfg.tokens.USDT mid])) ∧
    (o (.v2 [cfg.tokens.WBNB, cfg.tokens.USDC] size) = .ok mid →
      o (.wombat cfg.tokens.USDC cfg.tokens.USDT mid) = .ok mid2 →
      o (.v2 [cfg.tokens.USDT, cfg.tokens.WBNB] mid2) = .error e →
      evalTriangleWombat o cfg size .B =
        ({ ok := false, routeType := "TRI_WOMBAT_B", error := "V2 quote failed: " ++ e },
         [.v2 [cfg.tokens.WBNB, cfg.tokens.USDC] size,
          .wombat cfg.tokens.USDC cfg.tokens.USDT mid,
          .v2 [cfg.tokens.USDT, cfg.tokens.WBNB] mid2])) := by
  refine ⟨fun h1 => ?_, fun h1 h2 => ?_, fun h1 => ?_, fun h1 h2 => ?_, fun h1 h2 h3 => ?_,
    fun h1 h2 h3 => ?_, fun h1 h2 => ?_, fun h1 => ?_, fun h1 => ?_, fun h1 h2 => ?_,
    fun h1 h2 h3 => ?_⟩ <;>
    simp [evalCrossVersion, evalTriangleV2, evalTriangleWombat, quoteV2, quoteV3Single,
      quoteWombat, h1, *]

/-- An oracle whose V2 legs succeed and whose Wombat leg fails. -/
def oracleWombatDry : Oracle := fun c =>
  match c with
  | .v2 _ _ => .ok 77
  | .wombat _ _ _ => .error "dry"
  | _ => .error "x"

/-- C3 witness: with the all-failing oracle the V2→V3 route stops after
its single leg-1 call and the single-DEX triangle fails on its one call,
while with a Wombat-failing oracle both Wombat variants stop after legs 1
and 2, each outcome carrying the failing leg's error. -/
theorem C3_leg_failure_short_circuits_witness :
    evalCrossVersion oracleAllFail demoCfg 7 .v2v3 =
      ({ ok := false, routeType := "V2→V3", error := "V2 quote failed: boom" },
       [.v2 ["wbnb", "usdt"] 7]) ∧
    evalTriangleWombat oracleWombatDry demoCfg 7 .A =
      ({ ok := false, routeType := "TRI_WOMBAT_A", error := "Wombat quote failed: dry" },
       [.v2 ["wbnb", "usdt"] 7, .wombat "usdt" "usdc" 77]) ∧
    evalTriangleV2 oracleAllFail demoCfg 7 =
      ({ ok := false, routeType := "TRI", error := "V2 quote failed: boom" },
       [.v2 ["wbnb", "usdt", "busd", "wbnb"] 7]) ∧
    evalTriangleWombat oracleWombatDry demoCfg 7 .B =
      ({ ok := false, routeType := "TRI_WOMBAT_B", error := "Wombat quote failed: dry" },
       [.v2 ["wbnb", "usdc"] 7, .wombat "usdc" "usdt" 77]) :=
  ⟨(C3_leg_failure_short_circuits oracleAllFail demoCfg 7 0 0 "boom" "" "").1 rfl,
   ((C3_leg_failure_short_circuits oracleWombatDry demoCfg 7 77 0 "dry" "" "").2.2.2.1) rfl rfl,
   ((C3_leg_failure_short_circuits oracleAllFail demoCfg 7 0 0 "boom" "" "").2.2.2.2.2.2.2.1)
     rfl,
   ((C3_leg_failure_short_circuits oracleWombatDry demoCfg 7 77 0 "dry" "" "").2.2.2.2.2.2.2.2.2.1)
     rfl rfl⟩

/-- C4: the concentrated-liquidity quote tries the primary call form and,
only when it fails, retries once with the encoded-path form; a successful
retry yields that output with no error, and when both forms fail the quote
fails with a message containing both underlying error messages. -/
theorem C4_v3_retry_fallback (o : Oracle) (tokenIn tokenOut : String) (fee : Nat)
    (amountIn out out2 : Int) (e1 e2 : String) :
    (o (.v3single tokenIn tokenOut fee amountIn) = .ok out →
      quoteV3Single o tokenIn tokenOut fee amountIn =
        (.ok out, [.v3single tokenIn tokenOut fee amountIn])) ∧
    (o (.v3single tokenIn tokenOut fee amountIn) = .error e1 →
      o (.v3path tokenIn tokenOut fee amountIn) = .ok out2 →
      quoteV3Single o tokenIn tokenOut fee amountIn =
        (.ok out2,
         [.v3single tokenIn tokenOut fee amountIn, .v3path tokenIn tokenOut fee amountIn])) ∧
    (o (.v3single tokenIn tokenOut fee amountIn) = .error e1 →
      o (.v3path tokenIn tokenOut fee amountIn) = .error e2 →
      quoteV3Single o tokenIn tokenOut fee amountIn =
        (.error ("V3 quote failed: " ++ e2 ++ " (fallback after: " ++ e1 ++ ")"),
         [.v3single tokenIn tokenOut fee amountIn, .v3path tokenIn tokenOut fee amountIn]) ∧
      List.IsInfix e2.data ("V3 quote failed: " ++ e2 ++ " (fallback after: " ++ e1 ++ ")").data ∧
      List.IsInfix e1.data ("V3 quote failed: " ++ e2 ++ " (fallback after: " ++ e1 ++ ")").data) := by
  refine ⟨fun h1 => ?_, fun h1 h2 => ?_, fun h1 h2 => ⟨?_, ?_, ?_⟩⟩
  · simp [quoteV3Single, h1]
  · simp [quoteV3Single, h1, h2]
  · simp [quoteV3Single, h1, h2]
  · exact ⟨"V3 quote failed: ".data, (" (fallback after: " ++ e1 ++ ")").data,
      by simp [String.data_append]⟩
  · exact ⟨("V3 quote failed: " ++ e2 ++ " (fallback after: ").data, ")".data,
      by simp [String.data_append]⟩

/-- An oracle whose primary V3 call form fails while the encoded-path
fallback form succeeds with output 500. -/
def oracleV3Fallback : Oracle := fun c =>
  match c with
  | .v3single _ _ _ _ => .error "primary down"
  | .v3path _ _ _ _ => .ok 500
  | _ => .error "x"

/-- C4 witness: the fallback scenario (primary fails, encoded-path retry
returns 500) succeeds with output 500 and no error, and with the
all-failing oracle the combined failure message is produced. -/
theorem C4_v3_retry_fallback_witness :
    quoteV3Single oracleV3Fallback "usdt" "wbnb" 500 1000 =
      (.ok 500, [.v3single "usdt" "wbnb" 500 1000, .v3path "usdt" "wbnb" 500 1000]) ∧
    (quoteV3Single oracleAllFail "usdt" "wbnb" 500 1000).1 =
      .error "V3 quote failed: boom (fallback after: boom)" :=
  ⟨((C4_v3_retry_fallback oracleV3Fallback "usdt" "wbnb" 500 1000 0 500 "primary down" "").2.1)
      rfl rfl,
   by
    rw [((C4_v3_retry_fallback oracleAllFail "usdt" "wbnb" 500 1000 0 0 "boom" "boom").2.2
      rfl rfl).1]
    rfl⟩

/-- C6: the reported list is the stable descending-by-raw-profit sort of
the cycle's batch cut to at most ten entries: its length never exceeds 10,
it is pairwise descending in raw profit, and the sort stage is stable (any
already-descending sublist of the batch survives as a sublist of the
sorted list, so equal-profit entries keep their original relative
order). -/
theorem C6_rank_sorted_top10 (batch : List Scored) :
    (rankTop10 batch).length ≤ 10 ∧
    List.Pairwise (fun a b => b.pnl ≤ a.pnl) (rankTop10 batch) ∧
    (∀ c : List Scored, List.Pairwise (fun a b => descPnl a b = true) c →
      c.Sublist batch → c.Sublist ((batch.filter fun _ => true).mergeSort descPnl)) := by
  have htrans : ∀ a b c : Scored, descPnl a b = true → descPnl b c = true →
      descPnl a c = true := by
    intro a b c hab hbc
    simp only [descPnl, decide_eq_true_eq] at *
    omega
  have htot : ∀ a b : Scored, (descPnl a b || descPnl b a) = true := by
    intro a b
    simp only [descPnl, Bool.or_eq_true, decide_eq_true_eq]
    omega
  refine ⟨?_, ?_, ?_⟩
  · rw [rankTop10, List.length_take]
    exact min_le_left _ _
  · have hp := List.sorted_mergeSort htrans htot (batch.filter fun _ => true)
    have hp2 := List.Pairwise.sublist (List.take_sublist 10 _) hp
    exact hp2.imp fun h => by simpa [descPnl] using h
  · intro c hc hcb
    refine List.sublist_mergeSort htrans htot hc ?_
    rw [List.filter_true]
    exact hcb

/-- A successful scored entry with the given raw profit, used by the
ranking scenario. -/
def demoScored (p : Int) : Scored :=
  { routeType := "TRI", size := "0.01", legs := "TRI_V2:WBNB->USDT->BUSD->WBNB",
    amountIn := 1, out := 1 + p, pnl := p, bps := 0, gasWBNB := 0, flashFee := 0,
    netPnl := p, note := "" }

/-- A batch of twelve successes, more than the report cap of ten. -/
def demoBatch : List Scored :=
  (List.range 12).map fun k => demoScored (k : Int)

/-- C6 witness: on a concrete batch of twelve successes the ranked list
has exactly ten entries (so at most ten) and is pairwise descending. -/
theorem C6_rank_sorted_top10_witness :
    (rankTop10 demoBatch).length ≤ 10 ∧
    List.Pairwise (fun a b => b.pnl ≤ a.pnl) (rankTop10 demoBatch) ∧
    (rankTop10 demoBatch).length = 10 :=
  ⟨(C6_rank_sorted_top10 demoBatch).1, (C6_rank_sorted_top10 demoBatch).2.1, by
    have h : demoBatch.length = 12 := by decide
    rw [rankTop10, List.length_take, List.length_mergeSort, List.filter_true, h]
    decide⟩

/-- C8 (amended): raw profit, gas cost, flash-loan fee and net profit are
computed in exact integer arithmetic in the smallest unit (differences,
products and one truncating division, with no rounding beyond it); the
basis-points quotient is also computed exactly in integers, but its value
then passes through a conversion to a 64-bit float (`Number`), which is
lossless only for magnitudes up to 2^53 — so floating point does touch
the persisted basis-points value, though nothing else. -/
theorem C8_integer_arithmetic (r : RouteOutcome) (sz : String) (sizeIn gasPriceWei : Int)
    (cfg : Config) (n : Int) :
    ((scoreSuccess r sz sizeIn gasPriceWei cfg).pnl = r.out - r.amountIn ∧
     (scoreSuccess r sz sizeIn gasPriceWei cfg).gasWBNB =
       gasPriceWei * (estimateGasUnitsForRoute r.routeType cfg : Int) ∧
     (scoreSuccess r sz sizeIn gasPriceWei cfg).flashFee =
       (sizeIn * (cfg.flashloanFeeBps : Int)).tdiv 10000 ∧
     (scoreSuccess r sz sizeIn gasPriceWei cfg).netPnl =
       (r.out - r.amountIn) - gasPriceWei * (estimateGasUnitsForRoute r.routeType cfg : Int) -
         (sizeIn * (cfg.flashloanFeeBps : Int)).tdiv 10000) ∧
    ((scoreSuccess r sz sizeIn gasPriceWei cfg).bps =
      safePctBps (r.out - r.amountIn) r.amountIn) ∧
    (n.natAbs ≤ 2 ^ 53 → jsNumberOfInt n = n) :=
  ⟨⟨rfl, rfl, rfl, rfl⟩, rfl, fun h => jsNumberOfInt_small h⟩

/-- C8 witness: on the 1000-input scenario the scoring identities hold at
concrete values, and the float conversion is the identity on 400. -/
theorem C8_integer_arithmetic_witness :
    (scoreSuccess scenarioOutcome "1000" 1000 5 demoCfg).netPnl =
      ((1040 : Int) - 1000) - 5 * 1 - ((1000 : Int) * 10).tdiv 10000 ∧
    jsNumberOfInt 400 = 400 :=
  ⟨(C8_integer_arithmetic scenarioOutcome "1000" 1000 5 demoCfg 400).1.2.2.2,
   (C8_integer_arithmetic scenarioOutcome "1000" 1000 5 demoCfg 400).2.2 (by decide)⟩

/-- A successful outcome whose raw profit is 2^53 + 3 on input 10000, so
the exact basis-points quotient is 2^53 + 3. -/
def bigPnlOutcome : RouteOutcome :=
  { ok := true, routeType := "TRI", legs := "TRI_V2:WBNB->USDT->BUSD->WBNB",
    amountIn := 10000, out := 10000 + (2 ^ 53 + 3) }

/-- C8 counterexample: at raw profit 2^53 + 3 on input 10000 the exact
integer quotient is 2^53 + 3, but the scored basis-points value is
2^53 + 4: the conversion of the exact BigInt quotient to a JS `Number`
rounds it (ties-to-even forces a round up here), so the basis-points
field of the scored result is not produced by exact integer arithmetic
alone. -/
theorem C8_counterexample :
    (scoreSuccess bigPnlOutcome "big" 10000 0 demoCfg).pnl = 2 ^ 53 + 3 ∧
    (scoreSuccess bigPnlOutcome "big" 10000 0 demoCfg).bps = 2 ^ 53 + 4 ∧
    (scoreSuccess bigPnlOutcome "big" 10000 0 demoCfg).bps ≠
      ((scoreSuccess bigPnlOutcome "big" 10000 0 demoCfg).pnl * 10000).tdiv
        (scoreSuccess bigPnlOutcome "big" 10000 0 demoCfg).amountIn := by
  have hpnl : (scoreSuccess bigPnlOutcome "big" 10000 0 demoCfg).pnl = 2 ^ 53 + 3 := by
    show (10000 + (2 ^ 53 + 3) : Int) - 10000 = 2 ^ 53 + 3
    norm_num
  have hq : (((2 : Int) ^ 53 + 3) * 10000).tdiv 10000 = 2 ^ 53 + 3 :=
    Int.mul_tdiv_cancel _ (by norm_num)
  have hbps : (scoreSuccess bigPnlOutcome "big" 10000 0 demoCfg).bps = 2 ^ 53 + 4 := by
    show safePctBps ((10000 + (2 ^ 53 + 3) : Int) - 10000) 10000 = 2 ^ 53 + 4
    have hp : ((10000 + (2 ^ 53 + 3) : Int) - 10000) = 2 ^ 53 + 3 := by norm_num
    rw [hp, safePctBps, if_neg (by norm_num), hq, jsNumberOfInt_pow53_three]
  refine ⟨hpnl, hbps, ?_⟩
  rw [hpnl, hbps]
  show ((2 : Int) ^ 53 + 4) ≠ (((2 : Int) ^ 53 + 3) * 10000).tdiv 10000
  rw [hq]
  norm_num

lemma rowsForSize_fail_fields (o : Oracle) (cfg : Config) (g : Int) (ts sz : String)
    (sizeIn : Int) (row : Row) (h : row ∈ rowsForSize o cfg g ts sz sizeIn)
    (hn : row.note ≠ []) :
    row.legs = "" ∧ row.inAmt = "0" ∧ row.out = "0" ∧ row.pnl = "0" ∧ row.bps = "0" ∧
    row.gasCostWBNB = "0" ∧ row.flashFeeWBNB = "0" ∧ row.netPnl = "0" := by
  simp only [rowsForSize, List.mem_cons, List.not_mem_nil, or_false] at h
  rcases h with h | h | h | h | h <;>
  · split at h
    · rw [h] at hn
      exact absurd rfl hn
    · rw [h]
      exact ⟨rfl, rfl, rfl, rfl, rfl, rfl, rfl, rfl⟩

/-- C10: a failed attempt's persisted row carries the empty string in the
legs field and the literal string "0" in every monetary field (input,
output, raw profit, basis points, gas cost, flash fee, net profit),
whatever the attempted trade size was — only timestamp, route type, size
label and the error note vary; and in any cycle, every persisted row with
a non-empty note (exactly the failed attempts, successes write an empty
note) has those zeroed fields. -/
theorem C10_fail_rows_zeroed (o : Oracle) (cfg : Config) (gasPriceWei : Int) (ts : String)
    (sizes : List (String × Int)) (row : Row) :
    (∀ (ts2 : String) (r : RouteOutcome) (sz : String) (tag : List Char),
      (mkFailRow ts2 r sz tag).legs = "" ∧ (mkFailRow ts2 r sz tag).inAmt = "0" ∧
      (mkFailRow ts2 r sz tag).out = "0" ∧ (mkFailRow ts2 r sz tag).pnl = "0" ∧
      (mkFailRow ts2 r sz tag).bps = "0" ∧ (mkFailRow ts2 r sz tag).gasCostWBNB = "0" ∧
      (mkFailRow ts2 r sz tag).flashFeeWBNB = "0" ∧ (mkFailRow ts2 r sz tag).netPnl = "0") ∧
    (row ∈ runCycleRows o cfg gasPriceWei ts sizes → row.note ≠ [] →
      row.legs = "" ∧ row.inAmt = "0" ∧ row.out = "0" ∧ row.pnl = "0" ∧ row.bps = "0" ∧
      row.gasCostWBNB = "0" ∧ row.flashFeeWBNB = "0" ∧ row.netPnl = "0") := by
  refine ⟨fun ts2 r sz tag => ⟨rfl, rfl, rfl, rfl, rfl, rfl, rfl, rfl⟩, ?_⟩
  induction sizes with
  | nil =>
    intro hmem _
    simp [runCycleRows] at hmem
  | cons sp rest ih =>
    intro hmem hn
    simp only [runCycleRows] at hmem
    rcases List.mem_append.1 hmem with h | h
    · exact rowsForSize_fail_fields o cfg gasPriceWei ts sp.1 sp.2 row h hn
    · exact ih h hn

/-- The first row the all-failing oracle persists in a one-size cycle. -/
def failRowCross : Row :=
  mkFailRow "t" { ok := false, routeType := "V2→V3", error := "V2 quote failed: boom" }
    "0.01" errTagCross

/-- C10 witness: in a concrete cycle where every quote fails, a concrete
persisted failure row has empty legs and all-zero monetary fields. -/
theorem C10_fail_rows_zeroed_witness :
    failRowCross.legs = "" ∧ failRowCross.inAmt = "0" ∧ failRowCross.out = "0" ∧
    failRowCross.pnl = "0" ∧ failRowCross.bps = "0" ∧ failRowCross.gasCostWBNB = "0" ∧
    failRowCross.flashFeeWBNB = "0" ∧ failRowCross.netPnl = "0" :=
  (C10_fail_rows_zeroed oracleAllFail demoCfg 5 "t" [("0.01", 10)] failRowCross).2
    (by decide) (by decide)
